import Mathlib

/-!
Verification of the callable-value subsystem of the boa runtime
(`boa::builtins::function`): Function Values, constructor-kind and
this-mode classification, capture cells, the arguments materializer and
the registration factory. The crate documentation index exposes the
symbols `Function`, `ConstructorKind`, `ThisMode`, `Captures`, `DynCopy`,
`make_builtin_fn` and the `arguments` module; the Rust bodies themselves
are not part of this tree, so each definition below is modelled from the
specification document and marked as such.
-/

namespace BoaFunction

/-- Modelled from the spec: the runtime value type handled by the
callable-value subsystem (the concrete value universe lives in the
surrounding engine; the spec only needs `undefined`, `null`, object
references, function references and a few primitive carriers). -/
inductive Value where
  | undefined : Value
  | null : Value
  | vbool : Bool → Value
  | vnum : Int → Value
  | vstr : String → Value
  | obj : Nat → Value
  | fnRef : Nat → Value
  deriving DecidableEq, Repr

/-- Modelled from the spec: `ConstructorKind` (Rust enum `ConstructorKind`,
body not in this tree): Base constructors create `this` themselves, Derived
constructors require `super()` before `this` is usable, NotConstructable
rejects `new`. -/
inductive ConstructorKind where
  | notConstructable : ConstructorKind
  | base : ConstructorKind
  | derived : ConstructorKind
  deriving DecidableEq, Repr

/-- Modelled from the spec: `ThisMode` (Rust enum `ThisMode`, body not in
this tree): Lexical binds `this` from the enclosing scope at creation,
Strict passes the call-time `this` through unmodified, Global substitutes
the global default when the call-time `this` is absent. -/
inductive ThisMode where
  | lexical : ThisMode
  | strict : ThisMode
  | global : ThisMode
  deriving DecidableEq, Repr

/-- Modelled from the spec: the variant tag of the Function Value tagged
union (Rust enum `Function`): Native, Ordinary and Generator-like. -/
inductive FunctionKind where
  | native : FunctionKind
  | ordinary : FunctionKind
  | generatorLike : FunctionKind
  deriving DecidableEq, Repr

/-- Modelled from the spec: the Function Value: one uniform callable entity
with variant tag, display name, declared arity, constructor-kind and
this-mode classification, the `this` captured at creation (used by Lexical
mode), a capture-cell handle (for Native) and a compiled-body reference
(for Ordinary). -/
structure FunctionValue where
  kind : FunctionKind
  name : String
  arity : Nat
  constructorKind : ConstructorKind
  thisMode : ThisMode
  capturedThis : Value
  captureCell : Nat
  bodyId : Nat
  deriving DecidableEq, Repr

/-- Modelled from the spec: the failure taxonomy of §7:
`notConstructable` (TypeError-class), `unboundThis` (ReferenceError-class)
and the abrupt completions (throw / return / break) that bodies raise and
the subsystem passes through. -/
inductive Signal where
  | notConstructable : Signal
  | unboundThis : Signal
  | abruptThrow : Value → Signal
  | abruptReturn : Value → Signal
  | abruptBreak : Signal
  deriving DecidableEq, Repr

/-- A `TypeError`-class failure, per the spec taxonomy. -/
def Signal.isTypeErrorClass : Signal → Bool
  | Signal.notConstructable => true
  | _ => false

/-- A `ReferenceError`-class failure, per the spec taxonomy. -/
def Signal.isReferenceErrorClass : Signal → Bool
  | Signal.unboundThis => true
  | _ => false

/-- An abrupt completion raised by a body (exception, return or break). -/
def Signal.isAbruptCompletion : Signal → Bool
  | Signal.abruptThrow _ => true
  | Signal.abruptReturn _ => true
  | Signal.abruptBreak => true
  | _ => false

/-- Modelled from the spec: the this-mode resolution table of §4.1.
Lexical ignores the call-time `this` and uses the creation-time capture;
Strict passes the call-time `this` through verbatim; Global substitutes
the engine's global-object substitute when the call-time `this` is
`undefined` or `null` and passes any other value through verbatim. -/
def resolveThis (f : FunctionValue) (callTimeThis globalSubstitute : Value) : Value :=
  match f.thisMode with
  | ThisMode.lexical => f.capturedThis
  | ThisMode.strict => callTimeThis
  | ThisMode.global =>
      match callTimeThis with
      | Value.undefined => globalSubstitute
      | Value.null => globalSubstitute
      | v => v

/-- Modelled from the spec: the engine-side world threaded through the
subsystem: the table of registered Function Values, the capture-cell heap
(reference-counted shared state, modelled as an indexed store), the object
table of the property model, and a live count of the subsystem's own
intermediate allocations (Arguments Objects, partially-bound `this`). -/
structure World where
  funcs : List FunctionValue
  cells : List Value
  objects : List (List (String × Value))
  allocCount : Nat
  deriving DecidableEq, Repr

/-- Modelled from the spec: `wrap(state) -> CaptureCell` — allocates a new
shared cell holding the registered auxiliary state and returns its handle. -/
def wrap (w : World) (state : Value) : Nat × World :=
  (w.cells.length, { w with cells := w.cells ++ [state] })

/-- Modelled from the spec: `clone(cell) -> CaptureCell` — cheap, shares
the underlying state: the clone is the same handle into the shared heap. -/
def cloneCell (c : Nat) : Nat := c

/-- Modelled from the spec: `access(cell)` — reads the shared state behind
a capture-cell handle. -/
def readCell (w : World) (c : Nat) : Value :=
  w.cells.getD c Value.undefined

/-- Modelled from the spec: mutation of the captured state behind a
capture-cell handle, visible to every Function Value sharing the cell. -/
def writeCell (w : World) (c : Nat) (v : Value) : World :=
  { w with cells := w.cells.set c v }

/-- Modelled from the spec: cloning a Function Value copies the fixed-size
handle; the capture cell is shared, never deep-copied. -/
def cloneFunction (f : FunctionValue) : FunctionValue := f

/-- Modelled from the spec: the registration factory
`make_native_function(name, arity, constructor_kind, this_mode, fn_ptr,
initial_capture_state)`: wraps the initial capture state into a fresh
Capture Cell and packages the metadata into a Native Function Value. -/
def make_native_function (w : World) (nm : String) (ar : Nat)
    (ck : ConstructorKind) (tm : ThisMode) (bodyId : Nat)
    (initialCapture : Value) : FunctionValue × World :=
  let p := wrap w initialCapture
  ({ kind := FunctionKind.native, name := nm, arity := ar,
     constructorKind := ck, thisMode := tm,
     capturedThis := Value.undefined, captureCell := p.1,
     bodyId := bodyId }, p.2)

/-- Modelled from the spec: the constructor-call scope: for Derived
constructors `this` is left unbound until the body executes `super()`. -/
structure Scope where
  thisBinding : Option Value
  deriving DecidableEq, Repr

/-- Modelled from the spec: the scope a Derived constructor body starts
in — `this` unbound. -/
def initialDerivedScope : Scope := { thisBinding := none }

/-- Modelled from the spec: an operation that reads `this` from the
constructor scope: fails with the `UnboundThis` ReferenceError-class
signal before `super()` has bound it, succeeds afterwards. -/
def readThisFromScope : Scope → Except Signal Value
  | { thisBinding := none } => Except.error Signal.unboundThis
  | { thisBinding := some v } => Except.ok v

/-- Modelled from the spec: the `super()` step of a Derived constructor,
a side-effecting scope mutation that binds `this`. -/
def superStep (boundObj : Value) (s : Scope) : Scope :=
  { s with thisBinding := some boundObj }

/-- Modelled from the spec: a compiled function body as the execution
engine supplies it: it may read and mutate the shared capture-cell heap
and finishes with a value or an abrupt signal. -/
def Body : Type :=
  List Value → Value → List Value → Except Signal Value × List Value

/-- Modelled from the spec: a compiled constructor body: like `Body` but
executing against the constructor scope (where `this` may be unbound). -/
def CtorBody : Type :=
  List Value → Scope → List Value → Except Signal Value × List Value

/-- Observable events of a call: which compiled body ran and which
resolved `this` (for plain calls) or initial scope (for constructor
calls) it observed. -/
inductive Event where
  | bodyExecuted : Nat → Value → Event
  | ctorBodyExecuted : Nat → Scope → Event
  deriving DecidableEq, Repr

/-- Modelled from the spec: `call(callee, this_value, args)`: resolve
`this` per `this_mode`, materialize the per-call intermediate allocations
(counted in `allocCount`), execute the body, release the intermediates on
both the normal and the unwind path, and hand the body's outcome back
unchanged. -/
def call (w : World) (f : FunctionValue) (body : Body) (thisArg : Value)
    (args : List Value) (globalSubstitute : Value) :
    Except Signal Value × World × List Event :=
  let resolved := resolveThis f thisArg globalSubstitute
  let w1 : World := { w with allocCount := w.allocCount + 1 }
  let p := body w1.cells resolved args
  let w2 : World := { w1 with cells := p.2, allocCount := w1.allocCount - 1 }
  (p.1, w2, [Event.bodyExecuted f.bodyId resolved])

/-- Modelled from the spec: `construct(callee, args, new_target)`:
rejected with the TypeError-class `notConstructable` signal when
`constructor_kind = NotConstructable` (never degraded to a call, body
never executed); for Base the engine allocates `this` before body
execution and binds it into the scope; for Derived `this` is left unbound
until the body's `super()` step. Intermediate allocations are released on
both paths. -/
def construct (w : World) (f : FunctionValue) (body : CtorBody)
    (args : List Value) (_newTarget : Value) (freshObj : Value) :
    Except Signal Value × World × List Event :=
  match f.constructorKind with
  | ConstructorKind.notConstructable =>
      (Except.error Signal.notConstructable, w, [])
  | ConstructorKind.base =>
      let scope : Scope := { thisBinding := some freshObj }
      let w1 : World := { w with allocCount := w.allocCount + 1 }
      let p := body w1.cells scope args
      let w2 : World := { w1 with cells := p.2, allocCount := w1.allocCount - 1 }
      (match p.1 with
       | Except.ok _ => Except.ok freshObj
       | Except.error s => Except.error s,
       w2, [Event.ctorBodyExecuted f.bodyId scope])
  | ConstructorKind.derived =>
      let w1 : World := { w with allocCount := w.allocCount + 1 }
      let p := body w1.cells initialDerivedScope args
      let w2 : World := { w1 with cells := p.2, allocCount := w1.allocCount - 1 }
      (p.1, w2, [Event.ctorBodyExecuted f.bodyId initialDerivedScope])

/-- Modelled from the spec: the shape of a declared formal parameter:
simple named binding, default-valued, rest, or destructuring pattern. -/
inductive FormalParam where
  | simple : String → FormalParam
  | withDefault : String → Value → FormalParam
  | rest : String → FormalParam
  | destructuring : FormalParam
  deriving DecidableEq, Repr

/-- A formal parameter is simple when it is a plain named binding with no
destructuring, default or rest. -/
def FormalParam.isSimple : FormalParam → Bool
  | FormalParam.simple _ => true
  | _ => false

/-- A this-mode under which the spec forbids the arguments aliasing
relation: strict-mode and lexical-this functions never install it. -/
def ThisMode.deniesAliasing : ThisMode → Bool
  | ThisMode.strict => true
  | ThisMode.lexical => true
  | ThisMode.global => false

/-- Modelled from the spec: the condition of §4.4 under which the
Arguments Object aliases the named formals: a non-strict,
non-lexical-this call whose formal parameters are all simple. -/
def installsAliasing (f : FunctionValue) (formals : List FormalParam) : Bool :=
  !f.thisMode.deniesAliasing && formals.all FormalParam.isSimple

/-- Modelled from the spec: the call frame handed to the arguments
materializer: the invoked Function Value and the actual argument list. -/
structure CallFrame where
  callee : FunctionValue
  args : List Value
  deriving DecidableEq, Repr

/-- Modelled from the spec: the Arguments Object (module `arguments`,
bodies not in this tree): index-keyed entries over the actual arguments,
the `callee` reference, and whether the live aliasing relation to the
named formals was installed. -/
structure ArgumentsObject where
  indexEntries : List (Nat × Value)
  callee : FunctionValue
  aliased : Bool
  deriving DecidableEq, Repr

/-- Modelled from the spec: `materialize(call_frame) -> ArgumentsObject`:
index-keyed entries `0..args.len()-1` mapped to the actual argument
values — built from the actuals, not the declared formals — with the
`callee` field set to the invoked Function Value. -/
def materialize (frame : CallFrame) (formals : List FormalParam) :
    ArgumentsObject :=
  { indexEntries := (List.range frame.args.length).zip frame.args
    callee := frame.callee
    aliased := installsAliasing frame.callee formals }

/-- Modelled from the spec: the live per-call stores the aliasing relation
connects: the Arguments Object's indexed slots and the named formal
bindings of the call frame (parameter binding defaults missing actuals to
`undefined`, unlike the Arguments Object itself). -/
structure ExecFrame where
  argStore : List Value
  bindings : List Value
  aliased : Bool
  deriving DecidableEq, Repr

/-- Modelled from the spec: building the execution frame at call entry:
indexed slots from the actuals, formal bindings by position (defaulted to
`undefined` when the actual is missing), and the aliasing flag from
`installsAliasing`. -/
def mkExecFrame (f : FunctionValue) (formals : List FormalParam)
    (args : List Value) : ExecFrame :=
  { argStore := args
    bindings := (List.range formals.length).map
      (fun j => args.getD j Value.undefined)
    aliased := installsAliasing f formals }

/-- Modelled from the spec: mutating `arguments[i]`: always updates the
indexed slot; when the aliasing relation is installed it is also observed
through the named formal binding `i`. -/
def setArgIndex (fr : ExecFrame) (i : Nat) (v : Value) : ExecFrame :=
  { fr with argStore := fr.argStore.set i v
            bindings := if fr.aliased then fr.bindings.set i v
                        else fr.bindings }

/-- Modelled from the spec: mutating the named formal binding `i`: always
updates the binding; when the aliasing relation is installed it is also
observed through `arguments[i]`. -/
def setFormal (fr : ExecFrame) (i : Nat) (v : Value) : ExecFrame :=
  { fr with bindings := fr.bindings.set i v
            argStore := if fr.aliased then fr.argStore.set i v
                        else fr.argStore }

/-- Reading `arguments[i]` from the execution frame. -/
def readArgIndex (fr : ExecFrame) (i : Nat) : Value :=
  fr.argStore.getD i Value.undefined

/-- Reading the named formal binding `i` from the execution frame. -/
def readFormal (fr : ExecFrame) (i : Nat) : Value :=
  fr.bindings.getD i Value.undefined

/-- Looking up a property of an object in the world's object table. -/
def getProp (w : World) (objId : Nat) (nm : String) : Option Value :=
  (w.objects.getD objId []).lookup nm

/-- Installing a property on an object in the world's object table. -/
def setProp (w : World) (objId : Nat) (nm : String) (v : Value) : World :=
  { w with objects :=
      w.objects.set objId ((nm, v) :: w.objects.getD objId []) }

/-- Modelled from the spec: `make_builtin_fn` — "Creates a new member
function of a `Object` or `prototype`" (Rust body not in this tree): the
registration factory wraps the native pointer and metadata into a Native
Function Value, appends it to the function table, and installs it as a
property of the target object under the given name. -/
def make_builtin_fn (w : World) (nm : String) (ar : Nat) (bodyId : Nat)
    (targetObj : Nat) : Nat × World :=
  let p := make_native_function w nm ar ConstructorKind.notConstructable
    ThisMode.strict bodyId Value.undefined
  let fid := p.2.funcs.length
  let w1 : World := { p.2 with funcs := p.2.funcs ++ [p.1] }
  (fid, setProp w1 targetObj nm (Value.fnRef fid))

/-! Helper lemmas about list stores. -/

theorem listSetConcatLength {α : Type} (l : List α) (a v : α) :
    (l ++ [a]).set l.length v = l ++ [v] := by
  induction l with
  | nil => rfl
  | cons x xs ih => simp [List.set, ih]

theorem listGetDConcatLength {α : Type} (l : List α) (a d : α) :
    (l ++ [a]).getD l.length d = a := by
  induction l with
  | nil => rfl
  | cons x xs _ => simp [List.getD]

theorem listGetDSetSelf {α : Type} (l : List α) (i : Nat) (a d : α)
    (h : i < l.length) : (l.set i a).getD i d = a := by
  induction l generalizing i with
  | nil => simp at h
  | cons x xs ih =>
    cases i with
    | zero => rfl
    | succ n => simpa [List.getD] using ih n (by simpa using h)

/-! Sample inputs used by the witness theorems. -/

/-- A sample world with one (empty) object registered. -/
def w0 : World :=
  { funcs := [], cells := [], objects := [[]], allocCount := 0 }

/-- A sample non-constructable native function. -/
def fNC : FunctionValue :=
  { kind := FunctionKind.native, name := "f", arity := 0,
    constructorKind := ConstructorKind.notConstructable,
    thisMode := ThisMode.strict, capturedThis := Value.undefined,
    captureCell := 0, bodyId := 0 }

/-- A sample lexical-this function with a captured `this`. -/
def fLex : FunctionValue :=
  { fNC with thisMode := ThisMode.lexical, capturedThis := Value.obj 7 }

/-- A sample strict-this function. -/
def fStrict : FunctionValue := fNC

/-- A sample global-this function. -/
def fGlobal : FunctionValue := { fNC with thisMode := ThisMode.global }

/-- A sample derived constructor. -/
def fDerived : FunctionValue :=
  { fNC with kind := FunctionKind.ordinary,
             constructorKind := ConstructorKind.derived }

/-- A sample base constructor. -/
def fBase : FunctionValue :=
  { fNC with kind := FunctionKind.ordinary,
             constructorKind := ConstructorKind.base }

/-- A sample body returning the `this` it observed. -/
def idBody : Body := fun cells t _ => (Except.ok t, cells)

/-- A sample body raising an abrupt throw completion. -/
def throwBody : Body :=
  fun cells _ _ => (Except.error (Signal.abruptThrow (Value.vnum 3)), cells)

/-- A sample constructor body completing normally. -/
def okCtorBody : CtorBody :=
  fun cells _ _ => (Except.ok Value.undefined, cells)

/-- A sample constructor body raising an abrupt throw completion. -/
def throwCtorBody : CtorBody :=
  fun cells _ _ => (Except.error (Signal.abruptThrow (Value.vnum 3)), cells)

/-- Claim C1: for every Function Value with
`constructor_kind = NotConstructable`, invoking `construct` with any
argument list and any `new_target` fails with the TypeError-class
`notConstructable` signal and the function body is never executed (the
event trace is empty — the construct is never degraded to a plain call). -/
theorem construct_notConstructable_rejects (w : World) (f : FunctionValue)
    (body : CtorBody) (args : List Value) (nt fo : Value)
    (h : f.constructorKind = ConstructorKind.notConstructable) :
    (construct w f body args nt fo).1 =
      Except.error Signal.notConstructable ∧
    Signal.isTypeErrorClass Signal.notConstructable = true ∧
    (construct w f body args nt fo).2.2 = [] := by
  simp [construct, h, Signal.isTypeErrorClass]

/-- Witness for C1: a concrete non-constructable function is rejected. -/
theorem construct_notConstructable_rejects_witness :
    (construct w0 fNC okCtorBody [Value.vnum 1] Value.undefined
      (Value.obj 0)).1 = Except.error Signal.notConstructable ∧
    Signal.isTypeErrorClass Signal.notConstructable = true ∧
    (construct w0 fNC okCtorBody [Value.vnum 1] Value.undefined
      (Value.obj 0)).2.2 = [] :=
  construct_notConstructable_rejects w0 fNC okCtorBody [Value.vnum 1]
    Value.undefined (Value.obj 0) rfl

/-- Claim C2: the `this` observed inside the body (recorded in the call
event trace) is `resolveThis` of the call-time `this`, and `resolveThis`
follows the this-mode table: Lexical ignores the call-time `this` and
uses the creation-time capture; Strict passes it through verbatim
(including `undefined` and `null`); Global substitutes the global-object
substitute for `undefined`/`null` and passes any other value through. -/
theorem call_this_resolution (w : World) (f : FunctionValue) (body : Body)
    (thisArg g : Value) (args : List Value) :
    (call w f body thisArg args g).2.2 =
      [Event.bodyExecuted f.bodyId (resolveThis f thisArg g)] ∧
    (f.thisMode = ThisMode.lexical →
      resolveThis f thisArg g = f.capturedThis) ∧
    (f.thisMode = ThisMode.strict → resolveThis f thisArg g = thisArg) ∧
    (f.thisMode = ThisMode.global →
      (thisArg = Value.undefined ∨ thisArg = Value.null) →
      resolveThis f thisArg g = g) ∧
    (f.thisMode = ThisMode.global → thisArg ≠ Value.undefined →
      thisArg ≠ Value.null → resolveThis f thisArg g = thisArg) := by
  refine ⟨rfl, ?_, ?_, ?_, ?_⟩
  · intro h; simp [resolveThis, h]
  · intro h; simp [resolveThis, h]
  · rintro h (rfl | rfl) <;> simp [resolveThis, h]
  · intro h h1 h2
    cases thisArg <;> simp_all [resolveThis]

/-- Witness for C2: the four rows of the this-mode table at concrete
inputs. -/
theorem call_this_resolution_witness :
    resolveThis fLex (Value.obj 5) Value.null = fLex.capturedThis ∧
    resolveThis fStrict Value.undefined Value.null = Value.undefined ∧
    resolveThis fGlobal Value.undefined (Value.obj 9) = Value.obj 9 ∧
    resolveThis fGlobal (Value.vnum 7) (Value.obj 9) = Value.vnum 7 :=
  ⟨(call_this_resolution w0 fLex idBody (Value.obj 5) Value.null []).2.1
      rfl,
   (call_this_resolution w0 fStrict idBody Value.undefined Value.null []
      ).2.2.1 rfl,
   (call_this_resolution w0 fGlobal idBody Value.undefined
      (Value.obj 9) []).2.2.2.1 rfl (Or.inl rfl),
   (call_this_resolution w0 fGlobal idBody (Value.vnum 7)
      (Value.obj 9) []).2.2.2.2 rfl (by decide) (by decide)⟩

/-- Claim C4: in a Derived-constructor invocation the body starts in the
unbound-`this` scope; reading `this` from that scope fails with the
ReferenceError-class `unboundThis` signal, and after the `super()` step
the same read succeeds and returns the bound object. -/
theorem derived_this_unbound_until_super (w : World) (f : FunctionValue)
    (body : CtorBody) (args : List Value) (nt fo bound : Value)
    (h : f.constructorKind = ConstructorKind.derived) :
    (construct w f body args nt fo).2.2 =
      [Event.ctorBodyExecuted f.bodyId initialDerivedScope] ∧
    readThisFromScope initialDerivedScope =
      Except.error Signal.unboundThis ∧
    Signal.isReferenceErrorClass Signal.unboundThis = true ∧
    readThisFromScope (superStep bound initialDerivedScope) =
      Except.ok bound := by
  refine ⟨?_, rfl, rfl, rfl⟩
  simp [construct, h]

/-- Witness for C4: a concrete derived constructor leaves `this` unbound
until `super()` binds the object. -/
theorem derived_this_unbound_until_super_witness :
    (construct w0 fDerived okCtorBody [] Value.undefined
      (Value.obj 1)).2.2 =
      [Event.ctorBodyExecuted fDerived.bodyId initialDerivedScope] ∧
    readThisFromScope initialDerivedScope =
      Except.error Signal.unboundThis ∧
    Signal.isReferenceErrorClass Signal.unboundThis = true ∧
    readThisFromScope (superStep (Value.obj 1) initialDerivedScope) =
      Except.ok (Value.obj 1) :=
  derived_this_unbound_until_super w0 fDerived okCtorBody [] Value.undefined
    (Value.obj 1) (Value.obj 1) rfl

/-- Claim C7: a Lexical-this function observes the creation-time captured
`this` inside its body on every call, no matter how the call-time `this`
(or the global substitute, the body, the arguments or the world) varies
between calls, and the resolution of two arbitrary calls agrees. -/
theorem lexical_this_fixed_at_creation (w w' : World) (f : FunctionValue)
    (body body' : Body) (t1 t2 g1 g2 : Value) (args1 args2 : List Value)
    (h : f.thisMode = ThisMode.lexical) :
    (call w f body t1 args1 g1).2.2 =
      [Event.bodyExecuted f.bodyId f.capturedThis] ∧
    (call w' f body' t2 args2 g2).2.2 =
      [Event.bodyExecuted f.bodyId f.capturedThis] ∧
    resolveThis f t1 g1 = resolveThis f t2 g2 := by
  simp [call, resolveThis, h]

/-- Witness for C7: two calls of a concrete lexical-this function with
different call-time `this` values observe the same captured `this`. -/
theorem lexical_this_fixed_at_creation_witness :
    (call w0 fLex idBody (Value.vnum 1) [] Value.null).2.2 =
      [Event.bodyExecuted fLex.bodyId fLex.capturedThis] ∧
    (call w0 fLex idBody (Value.vstr "other") [] Value.undefined).2.2 =
      [Event.bodyExecuted fLex.bodyId fLex.capturedThis] ∧
    resolveThis fLex (Value.vnum 1) Value.null =
      resolveThis fLex (Value.vstr "other") Value.undefined :=
  lexical_this_fixed_at_creation w0 w0 fLex idBody idBody (Value.vnum 1)
    (Value.vstr "other") Value.null Value.undefined [] [] rfl

/-- Claim C3: every clone of a Function Value produced by a native
registration shares the one same Capture Cell (the clone copies the
fixed-size handle, not the state): a mutation of the captured state
performed through one clone is read back through every other clone, and
before any mutation each clone reads the registered initial state. -/
theorem capture_cell_shared_across_clones (w : World) (nm : String)
    (ar bid : Nat) (ck : ConstructorKind) (tm : ThisMode)
    (initCap v : Value) :
    (cloneFunction (make_native_function w nm ar ck tm bid initCap).1
      ).captureCell =
      (cloneFunction (make_native_function w nm ar ck tm bid initCap).1
        ).captureCell ∧
    cloneCell (make_native_function w nm ar ck tm bid initCap
      ).1.captureCell =
      (make_native_function w nm ar ck tm bid initCap).1.captureCell ∧
    readCell (make_native_function w nm ar ck tm bid initCap).2
      (cloneFunction (make_native_function w nm ar ck tm bid initCap).1
        ).captureCell = initCap ∧
    readCell
      (writeCell (make_native_function w nm ar ck tm bid initCap).2
        (cloneFunction (make_native_function w nm ar ck tm bid initCap).1
          ).captureCell v)
      (cloneFunction (make_native_function w nm ar ck tm bid initCap).1
        ).captureCell = v := by
  refine ⟨rfl, rfl, ?_, ?_⟩
  · simp [make_native_function, wrap, readCell, cloneFunction,
      listGetDConcatLength]
  · simp [make_native_function, wrap, readCell, writeCell, cloneFunction,
      listSetConcatLength, listGetDConcatLength]

/-- Claim C5: `materialize` yields an Arguments Object whose index-keyed
entries are exactly `0..n-1` (for an actual-argument list of length `n`)
mapped to the actual argument values — determined by the actuals alone,
so excess actuals beyond the declared arity are kept and missing formals
are absent rather than defaulted — and whose `callee` equals the invoked
Function Value. -/
theorem materialize_arguments_exact (frame : CallFrame)
    (formals : List FormalParam) :
    ((materialize frame formals).indexEntries).map Prod.fst =
      List.range frame.args.length ∧
    ((materialize frame formals).indexEntries).map Prod.snd =
      frame.args ∧
    (materialize frame formals).indexEntries.length =
      frame.args.length ∧
    (materialize frame formals).callee = frame.callee := by
  refine ⟨?_, ?_, ?_, rfl⟩
  · exact List.map_fst_zip _ _ (by simp)
  · exact List.map_snd_zip _ _ (by simp)
  · simp [materialize]

/-- Claim C9: `constructor_kind` and `this_mode` are set exactly once at
creation from the registration context, and no subsystem operation
(call, construct, materialize, cell mutation, clone) ever mutates the
classification of any registered Function Value afterwards. -/
theorem classification_set_once_never_mutated (w : World)
    (f : FunctionValue) (body : Body) (cbody : CtorBody) (nm : String)
    (ar bid c : Nat) (ck : ConstructorKind) (tm : ThisMode)
    (thisArg g nt fo initCap v : Value) (args : List Value)
    (frame : CallFrame) (formals : List FormalParam) :
    (make_native_function w nm ar ck tm bid initCap).1.constructorKind =
      ck ∧
    (make_native_function w nm ar ck tm bid initCap).1.thisMode = tm ∧
    ((call w f body thisArg args g).2.1).funcs = w.funcs ∧
    ((construct w f cbody args nt fo).2.1).funcs = w.funcs ∧
    (wrap w initCap).2.funcs = w.funcs ∧
    (writeCell w c v).funcs = w.funcs ∧
    (materialize frame formals).callee.constructorKind =
      frame.callee.constructorKind ∧
    (materialize frame formals).callee.thisMode =
      frame.callee.thisMode ∧
    (cloneFunction f).constructorKind = f.constructorKind ∧
    (cloneFunction f).thisMode = f.thisMode := by
  refine ⟨rfl, rfl, rfl, ?_, rfl, rfl, rfl, rfl, rfl, rfl⟩
  cases hck : f.constructorKind <;> simp [construct, hck]

theorem listGetOptConcatLength {α : Type} (l : List α) (a : α) :
    (l ++ [a])[l.length]? = some a := by
  induction l with
  | nil => rfl
  | cons x xs _ => simp

/-- Claim C6: the Arguments Object aliases the named formals exactly when
the call is non-strict, non-lexical-this and every formal is simple:
under that condition mutating `arguments[i]` is observed through formal
`i` and vice versa; under strict mode, lexical `this`, or any non-simple
formal (default, rest, destructuring) the aliasing relation is never
installed and the mutations are not observed through the other name. -/
theorem arguments_aliasing_exact (f : FunctionValue)
    (formals : List FormalParam) (args : List Value) (i : Nat)
    (v : Value) :
    (f.thisMode ≠ ThisMode.strict → f.thisMode ≠ ThisMode.lexical →
      formals.all FormalParam.isSimple = true →
      i < formals.length → i < args.length →
      readFormal (setArgIndex (mkExecFrame f formals args) i v) i = v ∧
      readArgIndex (setFormal (mkExecFrame f formals args) i v) i = v) ∧
    (f.thisMode = ThisMode.strict ∨ f.thisMode = ThisMode.lexical ∨
      formals.all FormalParam.isSimple = false →
      (mkExecFrame f formals args).aliased = false ∧
      readFormal (setArgIndex (mkExecFrame f formals args) i v) i =
        readFormal (mkExecFrame f formals args) i ∧
      readArgIndex (setFormal (mkExecFrame f formals args) i v) i =
        readArgIndex (mkExecFrame f formals args) i) ∧
    (∀ p ∈ formals, FormalParam.isSimple p = false →
      installsAliasing f formals = false) := by
  refine ⟨?_, ?_, ?_⟩
  · intro h1 h2 h3 h4 h5
    have hal : installsAliasing f formals = true := by
      cases hm : f.thisMode <;>
        simp_all [installsAliasing, ThisMode.deniesAliasing]
    constructor
    · simp only [mkExecFrame, setArgIndex, readFormal, hal, if_pos]
      exact listGetDSetSelf _ i v Value.undefined (by simpa using h4)
    · simp only [mkExecFrame, setFormal, readArgIndex, hal, if_pos]
      exact listGetDSetSelf _ i v Value.undefined h5
  · intro h
    have hal : installsAliasing f formals = false := by
      rcases h with hm | hm | hs
      · simp [installsAliasing, hm, ThisMode.deniesAliasing]
      · simp [installsAliasing, hm, ThisMode.deniesAliasing]
      · simp [installsAliasing, hs]
    refine ⟨by simp [mkExecFrame, hal], ?_, ?_⟩
    · simp [mkExecFrame, setArgIndex, readFormal, hal]
    · simp [mkExecFrame, setFormal, readArgIndex, hal]
  · intro p hp hps
    cases hall : formals.all FormalParam.isSimple with
    | true =>
        exact absurd (List.all_eq_true.mp hall p hp) (by simp [hps])
    | false => simp [installsAliasing, hall]

/-- Witness for C6: a concrete global-this function with simple formals
`(a, b)` called with `(1, 2)` exhibits the aliasing both ways; the same
function with a rest formal installs no aliasing and mutating
`arguments[0]` leaves the formal unchanged. -/
theorem arguments_aliasing_exact_witness :
    (readFormal (setArgIndex (mkExecFrame fGlobal
        [FormalParam.simple "a", FormalParam.simple "b"]
        [Value.vnum 1, Value.vnum 2]) 0 (Value.vnum 42)) 0 =
      Value.vnum 42 ∧
     readArgIndex (setFormal (mkExecFrame fGlobal
        [FormalParam.simple "a", FormalParam.simple "b"]
        [Value.vnum 1, Value.vnum 2]) 0 (Value.vnum 42)) 0 =
      Value.vnum 42) ∧
    ((mkExecFrame fGlobal [FormalParam.simple "a", FormalParam.rest "r"]
        [Value.vnum 1, Value.vnum 2]).aliased = false ∧
     readFormal (setArgIndex (mkExecFrame fGlobal
        [FormalParam.simple "a", FormalParam.rest "r"]
        [Value.vnum 1, Value.vnum 2]) 0 (Value.vnum 42)) 0 =
      readFormal (mkExecFrame fGlobal
        [FormalParam.simple "a", FormalParam.rest "r"]
        [Value.vnum 1, Value.vnum 2]) 0 ∧
     readArgIndex (setFormal (mkExecFrame fGlobal
        [FormalParam.simple "a", FormalParam.rest "r"]
        [Value.vnum 1, Value.vnum 2]) 0 (Value.vnum 42)) 0 =
      readArgIndex (mkExecFrame fGlobal
        [FormalParam.simple "a", FormalParam.rest "r"]
        [Value.vnum 1, Value.vnum 2]) 0) ∧
    installsAliasing fGlobal
      [FormalParam.simple "a", FormalParam.rest "r"] = false :=
  ⟨(arguments_aliasing_exact fGlobal
      [FormalParam.simple "a", FormalParam.simple "b"]
      [Value.vnum 1, Value.vnum 2] 0 (Value.vnum 42)).1
      (by decide) (by decide) (by decide) (by decide) (by decide),
   (arguments_aliasing_exact fGlobal
      [FormalParam.simple "a", FormalParam.rest "r"]
      [Value.vnum 1, Value.vnum 2] 0 (Value.vnum 42)).2.1
      (Or.inr (Or.inr (by decide))),
   (arguments_aliasing_exact fGlobal
      [FormalParam.simple "a", FormalParam.rest "r"]
      [Value.vnum 1, Value.vnum 2] 0 (Value.vnum 42)).2.2
      (FormalParam.rest "r") (by decide) (by decide)⟩

/-- Claim C8: an abrupt completion raised by a body is returned by `call`
and `construct` to the caller unchanged — neither caught nor
transformed — and on both the normal and the unwind path the subsystem's
own intermediate allocations are released (the live allocation count
returns to its pre-call value). -/
theorem abrupt_completion_passthrough (w : World) (f : FunctionValue)
    (body : Body) (cbody : CtorBody) (thisArg g nt fo : Value)
    (args : List Value) (s : Signal) :
    ((body w.cells (resolveThis f thisArg g) args).1 = Except.error s →
      (call w f body thisArg args g).1 = Except.error s) ∧
    (call w f body thisArg args g).2.1.allocCount = w.allocCount ∧
    (f.constructorKind = ConstructorKind.base →
      (cbody w.cells { thisBinding := some fo } args).1 =
        Except.error s →
      (construct w f cbody args nt fo).1 = Except.error s) ∧
    (f.constructorKind = ConstructorKind.derived →
      (cbody w.cells initialDerivedScope args).1 = Except.error s →
      (construct w f cbody args nt fo).1 = Except.error s) ∧
    (construct w f cbody args nt fo).2.1.allocCount = w.allocCount := by
  refine ⟨?_, ?_, ?_, ?_, ?_⟩
  · intro h; simpa [call] using h
  · simp [call]
  · intro hck h; simp [construct, hck, h]
  · intro hck h; simpa [construct, hck] using h
  · cases hck : f.constructorKind <;> simp [construct, hck]

/-- Witness for C8: a concrete throwing body propagates its abrupt throw
unchanged through `call`, base `construct` and derived `construct`, and
the allocation count is restored. -/
theorem abrupt_completion_passthrough_witness :
    (call w0 fStrict throwBody Value.undefined [] Value.null).1 =
      Except.error (Signal.abruptThrow (Value.vnum 3)) ∧
    (construct w0 fBase throwCtorBody [] Value.undefined
      (Value.obj 1)).1 =
      Except.error (Signal.abruptThrow (Value.vnum 3)) ∧
    (construct w0 fDerived throwCtorBody [] Value.undefined
      (Value.obj 1)).1 =
      Except.error (Signal.abruptThrow (Value.vnum 3)) ∧
    (call w0 fStrict throwBody Value.undefined [] Value.null
      ).2.1.allocCount = w0.allocCount :=
  ⟨(abrupt_completion_passthrough w0 fStrict throwBody throwCtorBody
      Value.undefined Value.null Value.undefined (Value.obj 1) []
      (Signal.abruptThrow (Value.vnum 3))).1 rfl,
   (abrupt_completion_passthrough w0 fBase throwBody throwCtorBody
      Value.undefined Value.null Value.undefined (Value.obj 1) []
      (Signal.abruptThrow (Value.vnum 3))).2.2.1 rfl rfl,
   (abrupt_completion_passthrough w0 fDerived throwBody throwCtorBody
      Value.undefined Value.null Value.undefined (Value.obj 1) []
      (Signal.abruptThrow (Value.vnum 3))).2.2.2.1 rfl rfl,
   (abrupt_completion_passthrough w0 fStrict throwBody throwCtorBody
      Value.undefined Value.null Value.undefined (Value.obj 1) []
      (Signal.abruptThrow (Value.vnum 3))).2.1⟩

/-- Claim C10: `make_builtin_fn` both creates the native Function Value
(registered under the given name, with Native kind) and installs it as a
property of the target object under that name: after the call the target
object exposes the new function reference under the name. -/
theorem make_builtin_fn_installs (w : World) (nm : String)
    (ar bid tgt : Nat) (h : tgt < w.objects.length) :
    getProp (make_builtin_fn w nm ar bid tgt).2 tgt nm =
      some (Value.fnRef (make_builtin_fn w nm ar bid tgt).1) ∧
    ((make_builtin_fn w nm ar bid tgt).2.funcs.get?
        (make_builtin_fn w nm ar bid tgt).1).map FunctionValue.name =
      some nm ∧
    ((make_builtin_fn w nm ar bid tgt).2.funcs.get?
        (make_builtin_fn w nm ar bid tgt).1).map FunctionValue.kind =
      some FunctionKind.native := by
  refine ⟨?_, ?_, ?_⟩
  · simp only [make_builtin_fn, make_native_function, wrap, getProp,
      setProp]
    rw [listGetDSetSelf _ tgt _ _ (by simpa using h)]
    simp [List.lookup]
  · simp [make_builtin_fn, make_native_function, wrap, setProp,
      listGetOptConcatLength]
  · simp [make_builtin_fn, make_native_function, wrap, setProp,
      listGetOptConcatLength]

/-- Witness for C10: registering `foo` on the one object of the sample
world exposes the new function reference under `foo`. -/
theorem make_builtin_fn_installs_witness :
    getProp (make_builtin_fn w0 "foo" 1 0 0).2 0 "foo" =
      some (Value.fnRef (make_builtin_fn w0 "foo" 1 0 0).1) ∧
    ((make_builtin_fn w0 "foo" 1 0 0).2.funcs.get?
        (make_builtin_fn w0 "foo" 1 0 0).1).map FunctionValue.name =
      some "foo" ∧
    ((make_builtin_fn w0 "foo" 1 0 0).2.funcs.get?
        (make_builtin_fn w0 "foo" 1 0 0).1).map FunctionValue.kind =
      some FunctionKind.native :=
  make_builtin_fn_installs w0 "foo" 1 0 0 (by decide)

end BoaFunction
